import Mathlib

/-
Verification development for the stripe-decline-codes library
(src/index.ts resp. its extended revision, src/types.ts, src/data/decline-codes.ts).

The TypeScript source is shallowly embedded:
* TS string-literal union types `Locale` and `DeclineCategory` become inductives;
* the interfaces `Translation`, `DeclineCodeInfo`, `DeclineCodeResult`, `StripeError`
  become structures;
* the object literal `DECLINE_CODES` becomes an association list in declaration order
  (JavaScript object property order for non-numeric keys is insertion order, which is
  what `Object.keys` returns);
* JavaScript property lookup on the `DECLINE_CODES` object literal is modelled by
  `declineCodesGet`, including the prototype chain: an object literal inherits from
  `Object.prototype`, so reading a key such as "toString" yields an inherited function
  rather than `undefined`, and the `in` operator used by `isValidDeclineCode` reports
  such keys as present.  The inherited values are modelled abstractly by the
  `JsValue.protoFn` / `JsValue.protoObj` constructors; reading a data property such as
  `nextUserAction` off them yields `undefined` (`none`), exactly as in JavaScript.
-/

namespace StripeDecline

/-- Models the TS union `type Locale = 'en' | 'ja'` (src/types.ts). -/
inductive Locale where
  | en
  | ja
  deriving DecidableEq

/-- Models the TS union `type DeclineCategory = 'SOFT_DECLINE' | 'HARD_DECLINE'` (src/types.ts). -/
inductive DeclineCategory where
  | SOFT_DECLINE
  | HARD_DECLINE
  deriving DecidableEq

/-- Models the TS interface `Translation` (src/types.ts): two mandatory strings. -/
structure Translation where
  description : String
  nextUserAction : String
  deriving DecidableEq

/-- Models `Partial<Record<Locale, Translation>>` (the type of the optional
`translations` field): a finite map from the two locales to optional translations. -/
structure Translations where
  en : Option Translation
  ja : Option Translation
  deriving DecidableEq

/-- Indexing `translations[locale]` on the partial record. -/
def Translations.get (ts : Translations) (loc : Locale) : Option Translation :=
  match loc with
  | Locale.en => ts.en
  | Locale.ja => ts.ja

/-- Models the TS interface `DeclineCodeInfo` (src/types.ts).  The `translations`
field is optional in TS (`translations?:`), hence `Option`. -/
structure DeclineCodeInfo where
  description : String
  nextSteps : String
  nextUserAction : String
  category : DeclineCategory
  translations : Option Translations
  deriving DecidableEq

/-- A JavaScript value that can be produced by indexing the `DECLINE_CODES` object
literal with an arbitrary string key, or stored in the `code` field of a
`DeclineCodeResult`:
* `info i` — a data record that is an own property of the literal;
* `protoFn name` — a function inherited from `Object.prototype`
  (e.g. `DECLINE_CODES["toString"]` evaluates to `Object.prototype.toString`);
* `protoObj` — `Object.prototype` itself, produced by the inherited `__proto__` accessor;
* `emptyRecord` — the literal `\x7b\x7d` returned on failed description lookups;
* `undef` — `undefined`, for keys present nowhere on the prototype chain.
Reading the data fields `nextUserAction` / `translations` / `category` off anything
but `info` yields `undefined` (`none`), as none of the inherited objects carry those
properties. -/
inductive JsValue where
  | info : DeclineCodeInfo → JsValue
  | protoFn : String → JsValue
  | protoObj : JsValue
  | emptyRecord : JsValue
  | undef : JsValue
  deriving DecidableEq

/-- JS property read `v.nextUserAction`. -/
def JsValue.nextUserAction : JsValue → Option String
  | JsValue.info i => some i.nextUserAction
  | _ => none

/-- JS property read `v.translations`. -/
def JsValue.translations : JsValue → Option Translations
  | JsValue.info i => i.translations
  | _ => none

/-- JS property read `v.category`. -/
def JsValue.category : JsValue → Option DeclineCategory
  | JsValue.info i => some i.category
  | _ => none

/-- Models the TS interface `DeclineCodeResult` (src/types.ts).  Its `code` field has
TS type `DeclineCodeInfo | Record<string, never>`; at runtime the implementation can
in fact also store an inherited function there, which the `JsValue` type captures. -/
structure DeclineCodeResult where
  docVersion : String
  code : JsValue
  deriving DecidableEq

/-- Models the TS interface `StripeError` (src/types.ts): an open record with three
optional string fields; the index signature `[key: string]: unknown` is modelled by
an `extra` field that no operation ever reads. -/
structure StripeError where
  type : Option String
  decline_code : Option String
  message : Option String
  extra : List (String × String)
  deriving DecidableEq

/-- Models `export const DOC_VERSION = '2024-12-18'` (src/data/decline-codes.ts). -/
def DOC_VERSION : String := "2024-12-18"

/-- Models `export const DECLINE_CODES: Record<DeclineCode, DeclineCodeInfo>`
(src/data/decline-codes.ts) as an association list, keys in declaration order.
Every string is transcribed verbatim from the source file. -/
def DECLINE_CODES : List (String × DeclineCodeInfo) :=
  [ ("approve_with_id",
     { description := "The payment cannot be authorized.",
       nextSteps := "The payment should be attempted again. If it still cannot be processed, the customer needs to contact their card issuer.",
       nextUserAction := "Please try again. If it still cannot be processed, the please contact your card issuer.",
       category := DeclineCategory.SOFT_DECLINE,
       translations := some
         { en := none,
           ja := some
             { description := "支払いは承認できません。",
               nextUserAction := "もう一度やり直してください。それでも処理できない場合は、カード発行会社にお問い合わせください。" } } }),
    ("call_issuer",
     { description := "The card has been declined for an unknown reason.",
       nextSteps := "The customer needs to contact their card issuer for more information.",
       nextUserAction := "Please contact your card issuer for more information.",
       category := DeclineCategory.SOFT_DECLINE,
       translations := some
         { en := none,
           ja := some
             { description := "カードは未知の理由で拒否されました。",
               nextUserAction := "詳しくはカード発行会社にお問い合わせください。" } } }),
    ("card_not_supported",
     { description := "The card does not support this type of purchase.",
       nextSteps := "The customer needs to contact their card issuer to make sure their card can be used to make this type of purchase.",
       nextUserAction := "Your card issuer may not support this type of purchase, please contact your card issuer for more information.",
       category := DeclineCategory.HARD_DECLINE,
       translations := some
         { en := none,
           ja := some
             { description := "カードはこのタイプの購入をサポートしません。",
               nextUserAction := "カード発行者はこのタイプの購入をサポートしていない可能性があります。詳細については、カード発行会社にお問い合わせください。" } } }),
    ("card_velocity_exceeded",
     { description := "The customer has exceeded the balance or credit limit available on their card.",
       nextSteps := "The customer should contact their card issuer for more information.",
       nextUserAction := "Please contact your card issuer for more information.",
       category := DeclineCategory.SOFT_DECLINE,
       translations := some
         { en := none,
           ja := some
             { description := "このカードの残高またはクレジット制限を超えました。",
               nextUserAction := "詳しくはカード発行会社にお問い合わせください。" } } }),
    ("currency_not_supported",
     { description := "The card does not support the specified currency.",
       nextSteps := "The customer needs to check with the issuer whether the card can be used for the type of currency specified.",
       nextUserAction := "Please contact your card issuer to verify this type of currency can be used for this payment.",
       category := DeclineCategory.HARD_DECLINE,
       translations := some
         { en := none,
           ja := some
             { description := "カードは指定された通貨をサポートしていません。",
               nextUserAction := "この支払いにこのタイプの通貨が使用できることを確認するには、カード発行会社に連絡してください。" } } }),
    ("do_not_honor",
     { description := "The card has been declined for an unknown reason.",
       nextSteps := "The customer needs to contact their card issuer for more information.",
       nextUserAction := "Please contact your card issuer for more information.",
       category := DeclineCategory.SOFT_DECLINE,
       translations := some
         { en := none,
           ja := some
             { description := "カードは未知の理由で拒否されました。",
               nextUserAction := "詳しくはカード発行会社にお問い合わせください。" } } }),
    ("do_not_try_again",
     { description := "The card has been declined for an unknown reason.",
       nextSteps := "The customer should contact their card issuer for more information.",
       nextUserAction := "Please contact your card issuer for more information.",
       category := DeclineCategory.HARD_DECLINE,
       translations := some
         { en := none,
           ja := some
             { description := "カードは未知の理由で拒否されました。",
               nextUserAction := "詳しくはカード発行会社にお問い合わせください。" } } }),
    ("duplicate_transaction",
     { description := "A transaction with identical amount and credit card information was submitted very recently.",
       nextSteps := "Check to see if a recent payment already exists.",
       nextUserAction := "Check to see if a recent payment already exists.",
       category := DeclineCategory.SOFT_DECLINE,
       translations := some
         { en := none,
           ja := some
             { description := "ごく最近、同一の金額とクレジットカード情報を使用した取引が送信されました。",
               nextUserAction := "最近の支払いが既に存在するかどうかを確認してください。" } } }),
    ("expired_card",
     { description := "The card has expired.",
       nextSteps := "The customer should use another card.",
       nextUserAction := "Please use another card.",
       category := DeclineCategory.HARD_DECLINE,
       translations := some
         { en := none,
           ja := some
             { description := "カードは期限切れです。",
               nextUserAction := "別のカードを使用してください。" } } }),
    ("fraudulent",
     { description := "The payment has been declined as Stripe suspects it is fraudulent.",
       nextSteps := "Do not report more detailed information to your customer. Instead, present as you would the generic_decline described below.",
       nextUserAction := "Please contact your card issuer for more information.",
       category := DeclineCategory.HARD_DECLINE,
       translations := some
         { en := none,
           ja := some
             { description := "不正と思われるため、支払いは拒否されました。",
               nextUserAction := "詳しくはカード発行会社にお問い合わせください。" } } }),
    ("generic_decline",
     { description := "The card has been declined for an unknown reason.",
       nextSteps := "The customer needs to contact their card issuer for more information.",
       nextUserAction := "Please contact your card issuer for more information.",
       category := DeclineCategory.SOFT_DECLINE,
       translations := some
         { en := none,
           ja := some
             { description := "カードは未知の理由で拒否されました。",
               nextUserAction := "詳しくはカード発行会社にお問い合わせください。" } } }),
    ("incorrect_number",
     { description := "The card number is incorrect.",
       nextSteps := "The customer should try again using the correct card number.",
       nextUserAction := "Please check your card numbers and try again. If it still cannot be processed, the please contact your card issuer.",
       category := DeclineCategory.HARD_DECLINE,
       translations := some
         { en := none,
           ja := some
             { description := "カード番号が正しくありません。",
               nextUserAction := "カード番号を確認してもう一度やり直してください。それでも処理できない場合は、カード発行会社にお問い合わせください。" } } }),
    ("incorrect_cvc",
     { description := "The CVC number is incorrect.",
       nextSteps := "The customer should try again using the correct CVC.",
       nextUserAction := "Please check your card numbers and try again. If it still cannot be processed, the please contact your card issuer.",
       category := DeclineCategory.HARD_DECLINE,
       translations := some
         { en := none,
           ja := some
             { description := "CVC番号が正しくありません。",
               nextUserAction := "CSC番号を確認してもう一度やり直してください。それでも処理できない場合は、カード発行会社にお問い合わせください。" } } }),
    ("incorrect_pin",
     { description := "The PIN entered is incorrect. This decline code only applies to payments made with a card reader.",
       nextSteps := "The customer should try again using the correct PIN.",
       nextUserAction := "Please check your PIN and try again. If it still cannot be processed, the please contact your card issuer.",
       category := DeclineCategory.HARD_DECLINE,
       translations := some
         { en := none,
           ja := some
             { description := "PINコードが正しくありません。",
               nextUserAction := "PINコードを確認してもう一度やり直してください。それでも処理できない場合は、カード発行会社にお問い合わせください。" } } }),
    ("incorrect_zip",
     { description := "The ZIP/postal code is incorrect.",
       nextSteps := "The customer should try again using the correct billing ZIP/postal code.",
       nextUserAction := "Please try again using the correct ZIP/postal code.",
       category := DeclineCategory.HARD_DECLINE,
       translations := some
         { en := none,
           ja := some
             { description := "郵便番号が正しくありません。",
               nextUserAction := "正しい郵便番号を使用してもう一度お試しください。" } } }),
    ("insufficient_funds",
     { description := "The card has insufficient funds to complete the purchase.",
       nextSteps := "The customer should use an alternative payment method.",
       nextUserAction := "Please try again using an alternative payment method.",
       category := DeclineCategory.SOFT_DECLINE,
       translations := some
         { en := none,
           ja := some
             { description := "カードの購入に必要な資金が不足しています。",
               nextUserAction := "別のお支払い方法を使用してもう一度お試しください。" } } }),
    ("invalid_account",
     { description := "The card, or account the card is connected to, is invalid.",
       nextSteps := "The customer needs to contact their card issuer to check that the card is working correctly.",
       nextUserAction := "Please contact your card issuer for more information.",
       category := DeclineCategory.HARD_DECLINE,
       translations := some
         { en := none,
           ja := some
             { description := "カード、またはカードが接続されているアカウントが無効です。",
               nextUserAction := "詳しくはカード発行会社にお問い合わせください。" } } }),
    ("invalid_amount",
     { description := "The payment amount is invalid, or exceeds the amount that is allowed.",
       nextSteps := "If the amount appears to be correct, the customer needs to check with their card issuer that they can make purchases of that amount.",
       nextUserAction := "Please contact your card issuer for more information.",
       category := DeclineCategory.SOFT_DECLINE,
       translations := some
         { en := none,
           ja := some
             { description := "支払い金額が無効であるか、許可されている金額を超えています。",
               nextUserAction := "詳しくはカード発行会社にお問い合わせください。" } } }),
    ("invalid_cvc",
     { description := "The CVC number is incorrect.",
       nextSteps := "The customer should try again using the correct CVC.",
       nextUserAction := "Please try again using the correct CVC.",
       category := DeclineCategory.HARD_DECLINE,
       translations := some
         { en := none,
           ja := some
             { description := "CVC番号が正しくありません。",
               nextUserAction := "正しいCVCを使用してもう一度やり直してください。" } } }),
    ("invalid_expiry_year",
     { description := "The expiration year invalid.",
       nextSteps := "The customer should try again using the correct expiration date.",
       nextUserAction := "Please try again using the correct expiration date.",
       category := DeclineCategory.HARD_DECLINE,
       translations := some
         { en := none,
           ja := some
             { description := "有効期限が無効です。",
               nextUserAction := "正しい有効期限を入力してもう一度お試しください。" } } }),
    ("invalid_number",
     { description := "The card number is incorrect.",
       nextSteps := "The customer should try again using the correct card number.",
       nextUserAction := "Please try again using the correct card number.",
       category := DeclineCategory.HARD_DECLINE,
       translations := some
         { en := none,
           ja := some
             { description := "カード番号が正しくありません。",
               nextUserAction := "正しいカード番号を使用してもう一度やり直してください。" } } }),
    ("invalid_pin",
     { description := "The PIN entered is incorrect. This decline code only applies to payments made with a card reader.",
       nextSteps := "The customer should try again using the correct PIN.",
       nextUserAction := "Please try again using the correct card PIN.",
       category := DeclineCategory.HARD_DECLINE,
       translations := some
         { en := none,
           ja := some
             { description := "PINコードが正しくありません。",
               nextUserAction := "正しいPINコードを使用してもう一度やり直してください。" } } }),
    ("issuer_not_available",
     { description := "The card issuer could not be reached, so the payment could not be authorized.",
       nextSteps := "The payment should be attempted again. If it still cannot be processed, the customer needs to contact their card issuer.",
       nextUserAction := "Please try again. If it still cannot be processed, the please contact your card issuer.",
       category := DeclineCategory.SOFT_DECLINE,
       translations := some
         { en := none,
           ja := some
             { description := "カード発行者に連絡できなかったため、支払いを承認できませんでした。",
               nextUserAction := "もう一度やり直してください。それでも処理できない場合は、カード発行会社にお問い合わせください。" } } }),
    ("lost_card",
     { description := "The payment has been declined because the card is reported lost.",
       nextSteps := "The specific reason for the decline should not be reported to the customer. Instead, it needs to be presented as a generic decline.",
       nextUserAction := "Please contact your card issuer for more information.",
       category := DeclineCategory.HARD_DECLINE,
       translations := some
         { en := none,
           ja := some
             { description := "カードは未知の理由で拒否されました。",
               nextUserAction := "詳しくはカード発行会社にお問い合わせください。" } } }),
    ("merchant_blacklist",
     { description := "The payment has been declined because it matches a value on the Stripe user\x27s blocklist.",
       nextSteps := "Do not report more detailed information to your customer. Instead, present as you would the generic_decline described above.",
       nextUserAction := "Please contact your card issuer for more information.",
       category := DeclineCategory.HARD_DECLINE,
       translations := some
         { en := none,
           ja := some
             { description := "カードは未知の理由で拒否されました。",
               nextUserAction := "詳しくはカード発行会社にお問い合わせください。" } } }),
    ("new_account_information_available",
     { description := "The card, or account the card is connected to, is invalid.",
       nextSteps := "The customer needs to contact their card issuer for more information.",
       nextUserAction := "Please contact your card issuer for more information.",
       category := DeclineCategory.SOFT_DECLINE,
       translations := some
         { en := none,
           ja := some
             { description := "カード、またはカードが接続されているアカウントが無効です。",
               nextUserAction := "詳しくはカード発行会社にお問い合わせください。" } } }),
    ("no_action_taken",
     { description := "The card has been declined for an unknown reason.",
       nextSteps := "The customer should contact their card issuer for more information.",
       nextUserAction := "Please contact your card issuer for more information.",
       category := DeclineCategory.SOFT_DECLINE,
       translations := some
         { en := none,
           ja := some
             { description := "カードは未知の理由で拒否されました。",
               nextUserAction := "詳しくはカード発行会社にお問い合わせください。" } } }),
    ("not_permitted",
     { description := "The payment is not permitted.",
       nextSteps := "The customer needs to contact their card issuer for more information.",
       nextUserAction := "Please contact your card issuer for more information.",
       category := DeclineCategory.HARD_DECLINE,
       translations := some
         { en := none,
           ja := some
             { description := "支払いは許可されていません。",
               nextUserAction := "詳しくはカード発行会社にお問い合わせください。" } } }),
    ("pickup_card",
     { description := "The card cannot be used to make this payment (it is possible it has been reported lost or stolen).",
       nextSteps := "The customer needs to contact their card issuer for more information.",
       nextUserAction := "Please contact your card issuer for more information.",
       category := DeclineCategory.HARD_DECLINE,
       translations := some
         { en := none,
           ja := some
             { description := "カードでこの支払いを行うことはできません（紛失または盗難にあったと報告されている可能性があります）。",
               nextUserAction := "詳しくはカード発行会社にお問い合わせください。" } } }),
    ("pin_try_exceeded",
     { description := "The allowable number of PIN tries has been exceeded.",
       nextSteps := "The customer must use another card or method of payment.",
       nextUserAction := "Please use another card or method of payment.",
       category := DeclineCategory.SOFT_DECLINE,
       translations := some
         { en := none,
           ja := some
             { description := "PIN試行回数の上限を超えました。",
               nextUserAction := "別のカードまたはお支払い方法をご利用ください。" } } }),
    ("processing_error",
     { description := "An error occurred while processing the card.",
       nextSteps := "The payment should be attempted again. If it still cannot be processed, try again later.",
       nextUserAction := "Please try again. If it still cannot be processed, the please contact your card issuer.",
       category := DeclineCategory.SOFT_DECLINE,
       translations := some
         { en := none,
           ja := some
             { description := "カードの処理中にエラーが発生しました。",
               nextUserAction := "もう一度やり直してください。それでも処理できない場合は、カード発行会社にお問い合わせください。" } } }),
    ("reenter_transaction",
     { description := "The payment could not be processed by the issuer for an unknown reason.",
       nextSteps := "The payment should be attempted again. If it still cannot be processed, the customer needs to contact their card issuer.",
       nextUserAction := "Please try again. If it still cannot be processed, the please contact your card issuer.",
       category := DeclineCategory.SOFT_DECLINE,
       translations := some
         { en := none,
           ja := some
             { description := "原因不明のため、発行者が支払いを処理できませんでした。",
               nextUserAction := "もう一度やり直してください。それでも処理できない場合は、カード発行会社にお問い合わせください。" } } }),
    ("restricted_card",
     { description := "The card cannot be used to make this payment (it is possible it has been reported lost or stolen).",
       nextSteps := "The customer needs to contact their card issuer for more information.",
       nextUserAction := "Please contact your card issuer for more information.",
       category := DeclineCategory.HARD_DECLINE,
       translations := some
         { en := none,
           ja := some
             { description := "カードでこの支払いを行うことはできません（紛失または盗難にあったと報告されている可能性があります）。",
               nextUserAction := "詳しくはカード発行会社にお問い合わせください。" } } }),
    ("revocation_of_all_authorizations",
     { description := "The card has been declined for an unknown reason.",
       nextSteps := "The customer should contact their card issuer for more information.",
       nextUserAction := "Please contact your card issuer for more information.",
       category := DeclineCategory.HARD_DECLINE,
       translations := some
         { en := none,
           ja := some
             { description := "カードは未知の理由で拒否されました。",
               nextUserAction := "詳しくはカード発行会社にお問い合わせください。" } } }),
    ("revocation_of_authorization",
     { description := "The card has been declined for an unknown reason.",
       nextSteps := "The customer should contact their card issuer for more information.",
       nextUserAction := "Please contact your card issuer for more information.",
       category := DeclineCategory.HARD_DECLINE,
       translations := some
         { en := none,
           ja := some
             { description := "カードは未知の理由で拒否されました。",
               nextUserAction := "詳しくはカード発行会社にお問い合わせください。" } } }),
    ("security_violation",
     { description := "The card has been declined for an unknown reason.",
       nextSteps := "The customer needs to contact their card issuer for more information.",
       nextUserAction := "Please contact your card issuer for more information.",
       category := DeclineCategory.HARD_DECLINE,
       translations := some
         { en := none,
           ja := some
             { description := "カードは未知の理由で拒否されました。",
               nextUserAction := "詳しくはカード発行会社にお問い合わせください。" } } }),
    ("service_not_allowed",
     { description := "The card has been declined for an unknown reason.",
       nextSteps := "The customer should contact their card issuer for more information.",
       nextUserAction := "Please contact your card issuer for more information.",
       category := DeclineCategory.HARD_DECLINE,
       translations := some
         { en := none,
           ja := some
             { description := "カードは未知の理由で拒否されました。",
               nextUserAction := "詳しくはカード発行会社にお問い合わせください。" } } }),
    ("stolen_card",
     { description := "The payment has been declined because the card is reported stolen.",
       nextSteps := "The specific reason for the decline should not be reported to the customer. Instead, it needs to be presented as a generic decline.",
       nextUserAction := "Please contact your card issuer for more information.",
       category := DeclineCategory.HARD_DECLINE,
       translations := some
         { en := none,
           ja := some
             { description := "カードは未知の理由で拒否されました。",
               nextUserAction := "詳しくはカード発行会社にお問い合わせください。" } } }),
    ("stop_payment_order",
     { description := "The card has been declined for an unknown reason.",
       nextSteps := "The customer should contact their card issuer for more information.",
       nextUserAction := "Please contact your card issuer for more information.",
       category := DeclineCategory.HARD_DECLINE,
       translations := some
         { en := none,
           ja := some
             { description := "カードは未知の理由で拒否されました。",
               nextUserAction := "詳しくはカード発行会社にお問い合わせください。" } } }),
    ("testmode_decline",
     { description := "A Stripe test card number was used.",
       nextSteps := "A genuine card must be used to make a payment.",
       nextUserAction := "A genuine card must be used to make a payment.",
       category := DeclineCategory.HARD_DECLINE,
       translations := some
         { en := none,
           ja := some
             { description := "Stripeテストカード番号を使用しました。",
               nextUserAction := "支払いには本物のカードを使用する必要があります。" } } }),
    ("transaction_not_allowed",
     { description := "The card has been declined for an unknown reason.",
       nextSteps := "The customer needs to contact their card issuer for more information.",
       nextUserAction := "Please contact your card issuer for more information.",
       category := DeclineCategory.HARD_DECLINE,
       translations := some
         { en := none,
           ja := some
             { description := "カードは未知の理由で拒否されました。",
               nextUserAction := "詳しくはカード発行会社にお問い合わせください。" } } }),
    ("try_again_later",
     { description := "The card has been declined for an unknown reason.",
       nextSteps := "Ask the customer to attempt the payment again. If subsequent payments are declined, the customer should contact their card issuer for more information.",
       nextUserAction := "Please try again. If it still cannot be processed, the please contact your card issuer.",
       category := DeclineCategory.SOFT_DECLINE,
       translations := some
         { en := none,
           ja := some
             { description := "カードは未知の理由で拒否されました。",
               nextUserAction := "もう一度やり直してください。それでも処理できない場合は、カード発行会社にお問い合わせください。" } } }),
    ("withdrawal_count_limit_exceeded",
     { description := "The customer has exceeded the balance or credit limit available on their card.",
       nextSteps := "The customer should use an alternative payment method.",
       nextUserAction := "Please use another card or contact your card issuer for more information.",
       category := DeclineCategory.SOFT_DECLINE,
       translations := some
         { en := none,
           ja := some
             { description := "このカードの残高またはクレジット制限を超えました。",
               nextUserAction := "別のカードを使用するか、カード発行会社にお問い合わせください。" } } }) ]

/-- First-match association-list lookup, i.e. reading an own property of the
`DECLINE_CODES` object literal. -/
def lookupCode : List (String × DeclineCodeInfo) → String → Option DeclineCodeInfo
  | [], _ => none
  | (k, v) :: rest, key => if key = k then some v else lookupCode rest key

/-- The property keys of `Object.prototype` in an ECMAScript realm (ECMA-262 §20.2.3
plus the Annex B accessors), which an object literal inherits.  These are exactly the
extra keys for which the `in` operator answers true on `DECLINE_CODES`. -/
def objectPrototypeKeys : List String :=
  [ "constructor", "hasOwnProperty", "isPrototypeOf", "propertyIsEnumerable",
    "toLocaleString", "toString", "valueOf",
    "__defineGetter__", "__defineSetter__", "__lookupGetter__", "__lookupSetter__",
    "__proto__" ]

/-- Models the JS property read `DECLINE_CODES[key]`: an own property yields its data
record; otherwise the prototype chain is consulted — `__proto__` triggers the
inherited accessor and yields `Object.prototype` itself, the other `Object.prototype`
keys yield the corresponding inherited function, and everything else is `undefined`. -/
def declineCodesGet (key : String) : JsValue :=
  match lookupCode DECLINE_CODES key with
  | some i => JsValue.info i
  | none =>
    if key = "__proto__" then JsValue.protoObj
    else if objectPrototypeKeys.contains key then JsValue.protoFn key
    else JsValue.undef

/-- Models `isValidDeclineCode` (src/index.ts): `return code in DECLINE_CODES;`.
The JS `in` operator reports own properties AND inherited `Object.prototype`
properties, which is why the second disjunct is present. -/
def isValidDeclineCode (code : String) : Bool :=
  (lookupCode DECLINE_CODES code).isSome || objectPrototypeKeys.contains code

/-- Models `getDeclineDescription(declineCode?: string)` (src/index.ts).  The
parameter is optional (`none` = argument omitted / `undefined`), and the guard
`!declineCode` is also true for the empty string (falsy in JS). -/
def getDeclineDescription (declineCode : Option String) : DeclineCodeResult :=
  match declineCode with
  | none => { docVersion := DOC_VERSION, code := JsValue.emptyRecord }
  | some s =>
    if s = "" then { docVersion := DOC_VERSION, code := JsValue.emptyRecord }
    else if !(isValidDeclineCode s) then { docVersion := DOC_VERSION, code := JsValue.emptyRecord }
    else { docVersion := DOC_VERSION, code := declineCodesGet s }

/-- Models `getDeclineMessage(declineCode, locale = 'en')` (src/index.ts).  An omitted
locale argument defaults to `'en'` in the source; callers of this model pass
`Locale.en` in that situation.  The non-`'en'` branch is the optional chain
`codeInfo.translations?.[locale]?.nextUserAction`. -/
def getDeclineMessage (declineCode : String) (locale : Locale) : Option String :=
  if !(isValidDeclineCode declineCode) then
    none
  else
    let codeInfo := declineCodesGet declineCode
    if locale = Locale.en then
      codeInfo.nextUserAction
    else
      (codeInfo.translations.bind (fun ts => Translations.get ts locale)).map
        Translation.nextUserAction

/-- Models `getAllDeclineCodes` (src/index.ts): `Object.keys(DECLINE_CODES)`, the own
enumerable keys in insertion order (inherited properties are not included). -/
def getAllDeclineCodes : List String :=
  DECLINE_CODES.map (fun p => p.1)

/-- Models `getDocVersion` (src/index.ts). -/
def getDocVersion : String := DOC_VERSION

/-- Models `getDeclineCategory` (src/index.ts). -/
def getDeclineCategory (code : String) : Option DeclineCategory :=
  if !(isValidDeclineCode code) then none
  else (declineCodesGet code).category

/-- Models `isHardDecline` (src/index.ts): `getDeclineCategory(code) === 'HARD_DECLINE'`. -/
def isHardDecline (code : String) : Bool :=
  decide (getDeclineCategory code = some DeclineCategory.HARD_DECLINE)

/-- Models `isSoftDecline` (src/index.ts): `getDeclineCategory(code) === 'SOFT_DECLINE'`. -/
def isSoftDecline (code : String) : Bool :=
  decide (getDeclineCategory code = some DeclineCategory.SOFT_DECLINE)

/-- Models `getMessageFromStripeError(error, locale = 'en')` (src/index.ts).  The
guard `!error.decline_code` is true when the field is absent/`undefined` and also
when it is the empty string (falsy). -/
def getMessageFromStripeError (error : StripeError) (locale : Locale) : Option String :=
  match error.decline_code with
  | none => none
  | some s => if s = "" then none else getDeclineMessage s locale

/-
`formatDeclineMessage` builds, for every supplied variable key, the JavaScript regular
expression `new RegExp("\\\x7b\\\x7b" + key + "\\\x7d\\\x7d", "g")` — the key is spliced
into the pattern UNESCAPED — and applies `String.prototype.replace` with it.  The
following small engine models the fragment of ECMAScript regular expressions these
patterns can fall into when the key is made of ordinary characters, alternation bars,
groups, dots and backslash escapes:

  pattern     := alternative (bar alternative)*          (bar = the | character)
  alternative := atom*
  atom        := backslash c   — identity escape, matches the literal character c
               | ( pattern )   — group
               | .             — any character except a LineTerminator
               | c             — any other literal character

`parseRegex` returns `none` exactly where ECMA-262 raises an early SyntaxError inside
this fragment: a dangling backslash, an unbalanced "(" or ")".  Constructs outside
the fragment (quantifiers, character classes, anchors, unescaped braces) are mapped
to `none` as well and are never exercised by any theorem below; all theorems apply
the engine only to patterns inside the fragment, where it agrees with ECMA-262.
Matching follows the backtracking order of ECMA-262: alternatives are tried left to
right, and the first overall match is used.
-/

/-- Abstract syntax of the modelled regular-expression fragment. -/
inductive RegexAst where
  | lit : Char → RegexAst
  | dot : RegexAst
  | eps : RegexAst
  | seq : RegexAst → RegexAst → RegexAst
  | alt : RegexAst → RegexAst → RegexAst
  | group : RegexAst → RegexAst

/-- Characters that begin constructs outside the modelled fragment when unescaped:
`* + ? [ ] ^ $` and the two braces (written by code point). -/
def unsupportedRegexChar (c : Char) : Bool :=
  c.toNat ∈ [42, 43, 63, 91, 93, 94, 36, 123, 125]

mutual

/-- Parses a disjunction (sequence of alternatives separated by bars). -/
def parseAlt : Nat → List Char → Option (RegexAst × List Char)
  | 0, _ => none
  | fuel + 1, cs =>
    match parseSeq fuel cs with
    | none => none
    | some (a, rest) =>
      match rest with
      | '|' :: rest2 =>
        match parseAlt fuel rest2 with
        | none => none
        | some (b, rest3) => some (RegexAst.alt a b, rest3)
      | _ => some (a, rest)

/-- Parses one alternative: a (possibly empty) sequence of atoms, stopping at a bar,
a closing parenthesis or the end of the pattern. -/
def parseSeq : Nat → List Char → Option (RegexAst × List Char)
  | 0, _ => none
  | fuel + 1, cs =>
    match cs with
    | [] => some (RegexAst.eps, [])
    | '|' :: _ => some (RegexAst.eps, cs)
    | ')' :: _ => some (RegexAst.eps, cs)
    | _ =>
      match parseAtom fuel cs with
      | none => none
      | some (a, rest) =>
        match parseSeq fuel rest with
        | none => none
        | some (b, rest2) => some (RegexAst.seq a b, rest2)

/-- Parses a single atom.  A dangling backslash and an unterminated group are
SyntaxErrors (`none`), as in ECMA-262. -/
def parseAtom : Nat → List Char → Option (RegexAst × List Char)
  | 0, _ => none
  | fuel + 1, cs =>
    match cs with
    | [] => none
    | '\\' :: c :: rest => some (RegexAst.lit c, rest)
    | '\\' :: [] => none
    | '(' :: rest =>
      match parseAlt fuel rest with
      | none => none
      | some (a, rest2) =>
        match rest2 with
        | ')' :: rest3 => some (RegexAst.group a, rest3)
        | _ => none
    | '.' :: rest => some (RegexAst.dot, rest)
    | c :: rest => if unsupportedRegexChar c then none else some (RegexAst.lit c, rest)

end

/-- Parses a whole pattern; leftover input (an unmatched ")") is a SyntaxError. -/
def parseRegex (pattern : String) : Option RegexAst :=
  match parseAlt (4 * pattern.data.length + 8) pattern.data with
  | some (r, []) => some r
  | _ => none

/-- ECMAScript LineTerminator code points, which `.` does not match. -/
def isLineTerm (c : Char) : Bool :=
  c.toNat ∈ [10, 13, 8232, 8233]

/-- All ways the regex can match a prefix of the input, as the list of remaining
suffixes in ECMA-262 backtracking priority order (alternatives left to right). -/
def RegexAst.allMatches : RegexAst → List Char → List (List Char)
  | RegexAst.lit c, cs =>
    match cs with
    | c2 :: rest => if c2 = c then [rest] else []
    | [] => []
  | RegexAst.dot, cs =>
    match cs with
    | c2 :: rest => if isLineTerm c2 then [] else [rest]
    | [] => []
  | RegexAst.eps, cs => [cs]
  | RegexAst.seq a b, cs => (a.allMatches cs).flatMap b.allMatches
  | RegexAst.alt a b, cs => a.allMatches cs ++ b.allMatches cs
  | RegexAst.group a, cs => a.allMatches cs

/-- Length of the first (highest-priority) match of `r` at the start of `cs`, if any. -/
def firstMatchLen (r : RegexAst) (cs : List Char) : Option Nat :=
  match r.allMatches cs with
  | [] => none
  | rem :: _ => some (cs.length - rem.length)

/-- GetSubstitution for the replacement string (ECMA-262 §22.2.7.2), for the dollar
forms a plain replacement value can contain: `$$` yields a dollar sign and `$&` the
matched text; any other character is copied verbatim.  (Capture references `$n` and
the `$`-backtick/`$`-quote forms are outside the modelled fragment and are not
exercised by any theorem.) -/
def expandValue (matched : List Char) : List Char → List Char
  | [] => []
  | '$' :: '$' :: rest => '$' :: expandValue matched rest
  | '$' :: '&' :: rest => matched ++ expandValue matched rest
  | c :: rest => c :: expandValue matched rest

/-- The scan loop of `String.prototype.replace` with a global regex: at each position
try to match; on a match emit the expanded replacement and skip the matched text (a
zero-length match additionally keeps the current character and advances by one, the
`lastIndex` bump of ECMA-262); otherwise keep the character and advance. -/
def replaceLoop (r : RegexAst) (v : List Char) : Nat → List Char → List Char → List Char
  | 0, done, cs => done ++ cs
  | fuel + 1, done, cs =>
    match firstMatchLen r cs with
    | none =>
      match cs with
      | [] => done
      | c :: rest => replaceLoop r v fuel (done ++ [c]) rest
    | some 0 =>
      match cs with
      | [] => done ++ expandValue [] v
      | c :: rest => replaceLoop r v fuel (done ++ expandValue [] v ++ [c]) rest
    | some (n + 1) =>
      replaceLoop r v fuel (done ++ expandValue (cs.take (n + 1)) v) (cs.drop (n + 1))

/-- Models `message.replace(regex, value)` with a `"g"`-flagged regex. -/
def regexReplaceGlobal (r : RegexAst) (value : String) (input : String) : String :=
  String.mk (replaceLoop r value.data (input.data.length + 1) [] input.data)

/-- The `for (const [key, value] of Object.entries(variables))` loop of
`formatDeclineMessage`: for each pair, in insertion order, construct the regex
`new RegExp("\\\x7b\\\x7b" + key + "\\\x7d\\\x7d", "g")` — throwing a SyntaxError if the
spliced key makes the pattern invalid — and replace globally. -/
def applyVariables : String → List (String × String) → Except String String
  | msg, [] => Except.ok msg
  | msg, (k, v) :: rest =>
    match parseRegex ("\\\x7b\\\x7b" ++ k ++ "\\\x7d\\\x7d") with
    | none => Except.error "SyntaxError: Invalid regular expression"
    | some r => applyVariables (regexReplaceGlobal r v msg) rest

/-- Models `formatDeclineMessage(declineCode, locale = 'en', variables?)`
(src/index.ts).  `Except.error` models an uncaught JavaScript exception escaping the
function; `Except.ok none` models a normal return of `undefined`.  The guard
`!baseMessage` is also true for an empty string, and an absent `variables` argument
(`none`) skips the replacement loop entirely. -/
def formatDeclineMessage (declineCode : String) (locale : Locale)
    (vars : Option (List (String × String))) : Except String (Option String) :=
  match getDeclineMessage declineCode locale with
  | none => Except.ok none
  | some baseMessage =>
    if baseMessage = "" then Except.ok none
    else
      match vars with
      | none => Except.ok (some baseMessage)
      | some kvs => (applyVariables baseMessage kvs).map (fun m => some m)

/-- A key with a record in the table validates. -/
lemma isValid_of_lookup_some {code : String} {i : DeclineCodeInfo}
    (h : lookupCode DECLINE_CODES code = some i) : isValidDeclineCode code = true := by
  unfold isValidDeclineCode
  rw [h]
  simp

/-- Indexing with a declared key yields its data record. -/
lemma declineCodesGet_of_lookup_some {code : String} {i : DeclineCodeInfo}
    (h : lookupCode DECLINE_CODES code = some i) : declineCodesGet code = JsValue.info i := by
  unfold declineCodesGet
  rw [h]

/-- Indexing with a key that is not declared in the table yields a value (an inherited
function, `Object.prototype`, or `undefined`) carrying none of the data properties. -/
lemma declineCodesGet_no_fields {code : String}
    (h : lookupCode DECLINE_CODES code = none) :
    (declineCodesGet code).nextUserAction = none ∧
    (declineCodesGet code).translations = none ∧
    (declineCodesGet code).category = none := by
  unfold declineCodesGet
  rw [h]
  split_ifs <;>
    simp [JsValue.nextUserAction, JsValue.translations, JsValue.category]

/-- Claim C4: for every string and both locales, `getDeclineMessage` returns
no-value when the string is not a declared decline code (even when the buggy
validity check lets a prototype key such as "toString" through, the subsequent
property reads yield `undefined`); for a declared code it returns the record's
`nextUserAction` under the base locale `'en'` (which is also the default for an
omitted locale argument), and under `'ja'` it returns the Japanese translation's
`nextUserAction` when that sub-record is present and no-value — no fallback to the
English text — when it is absent. -/
theorem getDeclineMessage_contract (code : String) (loc : Locale) :
    (lookupCode DECLINE_CODES code = none → getDeclineMessage code loc = none) ∧
    (∀ i, lookupCode DECLINE_CODES code = some i →
        getDeclineMessage code Locale.en = some i.nextUserAction) ∧
    (∀ i t, lookupCode DECLINE_CODES code = some i →
        i.translations.bind (fun ts => Translations.get ts Locale.ja) = some t →
        getDeclineMessage code Locale.ja = some t.nextUserAction) ∧
    (∀ i, lookupCode DECLINE_CODES code = some i →
        i.translations.bind (fun ts => Translations.get ts Locale.ja) = none →
        getDeclineMessage code Locale.ja = none) := by
  refine ⟨?_, ?_, ?_, ?_⟩
  · intro h
    obtain ⟨h1, h2, _⟩ := declineCodesGet_no_fields h
    unfold getDeclineMessage isValidDeclineCode
    rw [h]
    cases hc : objectPrototypeKeys.contains code with
    | false => simp
    | true =>
      cases loc with
      | en => simp [h1]
      | ja => simp [h2]
  · intro i h
    unfold getDeclineMessage
    rw [isValid_of_lookup_some h, declineCodesGet_of_lookup_some h]
    simp [JsValue.nextUserAction]
  · intro i t h ht
    unfold getDeclineMessage
    rw [isValid_of_lookup_some h, declineCodesGet_of_lookup_some h]
    simp [JsValue.translations, ht]
  · intro i h ht
    unfold getDeclineMessage
    rw [isValid_of_lookup_some h, declineCodesGet_of_lookup_some h]
    simp [JsValue.translations, ht]

/-- Witness for `getDeclineMessage_contract` at concrete inputs. -/
theorem getDeclineMessage_contract_witness :
    getDeclineMessage "bogus" Locale.en = none :=
  (getDeclineMessage_contract "bogus" Locale.en).1 (by decide)

/-- Claim C7: `getMessageFromStripeError` returns no-value when `decline_code` is
absent or the empty string — regardless of every other field of the error record —
and otherwise returns exactly `getDeclineMessage` on that code and locale. -/
theorem getMessageFromStripeError_contract (e : StripeError) (loc : Locale) :
    ((e.decline_code = none ∨ e.decline_code = some "") →
        getMessageFromStripeError e loc = none) ∧
    (∀ s, e.decline_code = some s → s ≠ "" →
        getMessageFromStripeError e loc = getDeclineMessage s loc) ∧
    (∀ e2 : StripeError, e2.decline_code = e.decline_code →
        getMessageFromStripeError e2 loc = getMessageFromStripeError e loc) := by
  refine ⟨?_, ?_, ?_⟩
  · rintro (h | h) <;> simp [getMessageFromStripeError, h]
  · intro s h hs
    simp [getMessageFromStripeError, h, hs]
  · intro e2 h
    simp [getMessageFromStripeError, h]

/-- Witness for `getMessageFromStripeError_contract` at concrete inputs: an error
carrying a card-error `type` and a `message` but no `decline_code` yields no-value,
and one carrying a valid `decline_code` delegates to `getDeclineMessage`. -/
theorem getMessageFromStripeError_contract_witness :
    getMessageFromStripeError
      { type := some "StripeCardError", decline_code := none,
        message := some "An error occurred.", extra := [] } Locale.en = none ∧
    getMessageFromStripeError
      { type := some "StripeCardError", decline_code := some "insufficient_funds",
        message := some "Your card has insufficient funds.", extra := [] } Locale.en =
      getDeclineMessage "insufficient_funds" Locale.en :=
  ⟨(getMessageFromStripeError_contract
      { type := some "StripeCardError", decline_code := none,
        message := some "An error occurred.", extra := [] } Locale.en).1 (Or.inl rfl),
   (getMessageFromStripeError_contract
      { type := some "StripeCardError", decline_code := some "insufficient_funds",
        message := some "Your card has insufficient funds.", extra := [] } Locale.en).2.1
     "insufficient_funds" rfl (by decide)⟩

/-- Claim C8: `getDeclineCategory` returns no-value for a string that is not a
declared decline code (including the prototype keys the buggy validity check lets
through: the inherited value then has no `category` property) and the stored
category tag for a declared code; `isHardDecline` / `isSoftDecline` are exactly
"category equals HARD_DECLINE / SOFT_DECLINE", hence both return `false` — never
no-value — on every undeclared string. -/
theorem getDeclineCategory_contract (code : String) :
    (lookupCode DECLINE_CODES code = none →
        getDeclineCategory code = none ∧
        isHardDecline code = false ∧ isSoftDecline code = false) ∧
    (∀ i, lookupCode DECLINE_CODES code = some i →
        getDeclineCategory code = some i.category) ∧
    (isHardDecline code = true ↔ getDeclineCategory code = some DeclineCategory.HARD_DECLINE) ∧
    (isSoftDecline code = true ↔ getDeclineCategory code = some DeclineCategory.SOFT_DECLINE) := by
  refine ⟨?_, ?_, ?_, ?_⟩
  · intro h
    obtain ⟨_, _, h3⟩ := declineCodesGet_no_fields h
    have hcat : getDeclineCategory code = none := by
      unfold getDeclineCategory isValidDeclineCode
      rw [h]
      cases hc : objectPrototypeKeys.contains code with
      | false => simp
      | true => simp [h3]
    exact ⟨hcat, by simp [isHardDecline, hcat], by simp [isSoftDecline, hcat]⟩
  · intro i h
    unfold getDeclineCategory
    rw [isValid_of_lookup_some h, declineCodesGet_of_lookup_some h]
    simp [JsValue.category]
  · simp [isHardDecline]
  · simp [isSoftDecline]

/-- Witness for `getDeclineCategory_contract` at a concrete invalid code. -/
theorem getDeclineCategory_contract_witness :
    getDeclineCategory "invalid_code" = none ∧
    isHardDecline "invalid_code" = false ∧ isSoftDecline "invalid_code" = false :=
  (getDeclineCategory_contract "invalid_code").1 (by decide)

/-- Claim C1 (refuting evaluation): `isValidDeclineCode` is NOT exact key membership.
Because `code in DECLINE_CODES` consults the prototype chain, the inherited
`Object.prototype` property names "toString" and "hasOwnProperty" — which are not
declared decline codes (their table lookups are `none`) — are reported valid,
contradicting the claim; the remaining conjuncts record that the claim's other
probes (declared key, empty string, case variant, proper prefix) behave as stated. -/
theorem isValidDeclineCode_proto_eval :
    isValidDeclineCode "toString" = true ∧
    isValidDeclineCode "hasOwnProperty" = true ∧
    lookupCode DECLINE_CODES "toString" = none ∧
    lookupCode DECLINE_CODES "hasOwnProperty" = none ∧
    isValidDeclineCode "insufficient_funds" = true ∧
    isValidDeclineCode "" = false ∧
    isValidDeclineCode "Insufficient_Funds" = false ∧
    isValidDeclineCode "insufficient" = false := by
  decide

/-- Claim C2 (refuting evaluation): the table declares 43 keys, so
`getAllDeclineCodes` has length 43 — not the 44 the claim (and the source's own
doc comment) states; the list is duplicate-free and contains the four named codes. -/
theorem getAllDeclineCodes_eval :
    getAllDeclineCodes.length = 43 ∧
    getAllDeclineCodes.Nodup ∧
    "insufficient_funds" ∈ getAllDeclineCodes ∧
    "generic_decline" ∈ getAllDeclineCodes ∧
    "expired_card" ∈ getAllDeclineCodes ∧
    "incorrect_cvc" ∈ getAllDeclineCodes := by
  decide

/-- Claim C3 (refuting evaluation): for the non-code argument "toString" the
returned `code` field is the inherited `Object.prototype.toString` function, not the
empty record the claim requires; the absent and plain-invalid arguments do produce
the empty record with the table's version string. -/
theorem getDeclineDescription_toString_eval :
    getDeclineDescription (some "toString") =
      { docVersion := DOC_VERSION, code := JsValue.protoFn "toString" } ∧
    JsValue.protoFn "toString" ≠ JsValue.emptyRecord ∧
    getDeclineDescription none =
      { docVersion := DOC_VERSION, code := JsValue.emptyRecord } ∧
    getDeclineDescription (some "bogus") =
      { docVersion := DOC_VERSION, code := JsValue.emptyRecord } := by
  decide

/-- Claim C5 (refuting evaluation): with the variable key "(" the constructed
pattern is backslash-brace backslash-brace ( backslash-brace backslash-brace, whose
group is never closed — an ECMA-262 early SyntaxError — so `formatDeclineMessage`
throws instead of returning normally. -/
theorem formatDeclineMessage_regex_syntax_error :
    formatDeclineMessage "insufficient_funds" Locale.en (some [("(", "x")]) =
      Except.error "SyntaxError: Invalid regular expression" := by
  rfl

/-- Claim C6 (refuting evaluation): the variable key "a|t|z" is spliced unescaped
into the pattern, so its middle alternative is the bare letter t and every t of the
placeholder-free base message is replaced — formatting is not the identity there. -/
theorem formatDeclineMessage_alternation_injection :
    formatDeclineMessage "insufficient_funds" Locale.en (some [("a|t|z", "X")]) =
      Except.ok (some "Please Xry again using an alXernaXive paymenX meXhod.") ∧
    "Please Xry again using an alXernaXive paymenX meXhod." ≠
      "Please try again using an alternative payment method." := by
  exact ⟨rfl, by decide⟩

/-- Claim C9: dataset fidelity at the representative key "insufficient_funds": the
base-locale message (also the default when the locale argument is omitted), the
Japanese message, and the no-value result for an invalid code. -/
theorem getDeclineMessage_insufficient_funds_eval :
    getDeclineMessage "insufficient_funds" Locale.en =
      some "Please try again using an alternative payment method." ∧
    getDeclineMessage "insufficient_funds" Locale.ja =
      some "別のお支払い方法を使用してもう一度お試しください。" ∧
    getDeclineMessage "invalid_code" Locale.en = none := by
  decide

/-- Claim C10: every entry of the table carries a Japanese translation sub-record
with non-empty `description` and `nextUserAction`, so `getDeclineMessage` under
`'ja'` succeeds on every code returned by `getAllDeclineCodes` — the
translation-absent branch is unreachable over the shipped dataset. -/
theorem dataset_ja_translations_total :
    (∀ p ∈ DECLINE_CODES,
        (p.2.translations.bind Translations.ja).isSome = true ∧
        (p.2.translations.bind Translations.ja).map Translation.description ≠ some "" ∧
        (p.2.translations.bind Translations.ja).map Translation.nextUserAction ≠ some "") ∧
    (∀ code ∈ getAllDeclineCodes, (getDeclineMessage code Locale.ja).isSome = true) := by
  constructor <;> decide

/-- Witness for `dataset_ja_translations_total` at a concrete code. -/
theorem dataset_ja_translations_total_witness :
    (getDeclineMessage "insufficient_funds" Locale.ja).isSome = true :=
  dataset_ja_translations_total.2 "insufficient_funds" (by decide)

end StripeDecline
